import Mathlib

/-! # NXP S32 common-chassis glue drivers

A shallow embedding of

* `drivers/net/ethernet/stmicro/stmmac/dwmac-s32cc.c` (the DWMAC glue layer) and
* `drivers/pinctrl/freescale/pinctrl-s32g274.c` (the S32G274 pad table and probe).

Every driver function becomes a pure function.  What a function does to the outside
world (clock framework calls, register writes, calls into the stmmac core) is returned
as a list of `event`s in program order; what the outside world answers (return codes,
returned pointers) is an argument of the function.  Log calls (`dev_err`, `dev_info`,
`dev_dbg`) have no effect on control flow and are left out.
-/

namespace S32G2

/-! ## Kernel constants and `err.h` -/

/-- Value of `EINVAL` in `errno-base.h`. -/
def EINVAL : Int := 22

/-- Value of `ENOMEM` in `errno-base.h`. -/
def ENOMEM : Int := 12

/-- Value of `ENODEV` in `errno-base.h`. -/
def ENODEV : Int := 19

/-- Largest errno that `ERR_PTR` can carry (`err.h`). -/
def MAX_ERRNO : Int := 4095

/-- The null pointer; pointers are modelled by their value read as a signed `long`. -/
def NULL : Int := 0

/-- Kernel `IS_ERR`: the pointer lies in the last `MAX_ERRNO` addresses. -/
def IS_ERR (ptr : Int) : Bool := decide (-MAX_ERRNO ≤ ptr ∧ ptr < 0)

/-- Kernel `IS_ERR_OR_NULL`. -/
def IS_ERR_OR_NULL (ptr : Int) : Bool := decide (ptr = NULL) || IS_ERR ptr

/-- Kernel `PTR_ERR`: the pointer value itself, as a `long`. -/
def PTR_ERR (ptr : Int) : Int := ptr

/-- Conversion of a `long` to the `int` a probe function returns (two-complement wrap). -/
def long_to_int (x : Int) : Int := (x + 2 ^ 31) % 2 ^ 32 - 2 ^ 31

/-- Link speed `SPEED_10` of `ethtool.h`. -/
def SPEED_10 : Nat := 10

/-- Link speed `SPEED_100` of `ethtool.h`. -/
def SPEED_100 : Nat := 100

/-- Link speed `SPEED_1000` of `ethtool.h`. -/
def SPEED_1000 : Nat := 1000

/-! ## Constants of `dwmac-s32cc.c` -/

/-- TX clock rate for 1000 Mbit/s: 125MHz. -/
def GMAC_TX_RATE_125M : Nat := 125000000

/-- TX clock rate for 100 Mbit/s: 25MHz. -/
def GMAC_TX_RATE_25M : Nat := 25000000

/-- TX clock rate for 10 Mbit/s: 2.5MHz. -/
def GMAC_TX_RATE_2M5 : Nat := 2500000

/-- S32 SRC register value selecting MII. -/
def PHY_INTF_SEL_MII : Nat := 0x00

/-- S32 SRC register value selecting SGMII. -/
def PHY_INTF_SEL_SGMII : Nat := 0x01

/-- S32 SRC register value selecting RGMII. -/
def PHY_INTF_SEL_RGMII : Nat := 0x02

/-- S32 SRC register value selecting RMII. -/
def PHY_INTF_SEL_RMII : Nat := 0x08

/-- AXI4 ACE domain signal. -/
def ACE_DOMAIN_SIGNAL : Nat := 0x2

/-- AXI4 ACE cache signal. -/
def ACE_CACHE_SIGNAL : Nat := 0xf

/-- AXI4 ACE control byte: `(ACE_DOMAIN_SIGNAL << 4) | ACE_CACHE_SIGNAL`. -/
def ACE_CONTROL_SIGNALS : Nat := (ACE_DOMAIN_SIGNAL <<< 4) ||| ACE_CACHE_SIGNAL

/-- AXI4 ACE protection bits. -/
def ACE_PROTECTION : Nat := 0x2

/-- Store of a C `int` expression into a `u32` field. -/
def to_u32 (x : Nat) : Nat := x % 2 ^ 32

/-! ## Data model -/

/-- Modelled from the spec: the enum `phy_interface_t` is declared in `linux/phy.h`,
which is not among the sources.  The seven enumerators the driver names are
constructors of their own; `PHY_INTERFACE_MODE_OTHER n` stands for any enumerator the
driver does not name (NA, INTERNAL, GMII, TBI, ...), which only ever reaches a
`default:` label. -/
inductive phy_interface_t
  | PHY_INTERFACE_MODE_MII
  | PHY_INTERFACE_MODE_SGMII
  | PHY_INTERFACE_MODE_RMII
  | PHY_INTERFACE_MODE_RGMII
  | PHY_INTERFACE_MODE_RGMII_ID
  | PHY_INTERFACE_MODE_RGMII_RXID
  | PHY_INTERFACE_MODE_RGMII_TXID
  | PHY_INTERFACE_MODE_OTHER (n : Nat)
deriving DecidableEq, Repr

open phy_interface_t

/-- Driver private data `struct s32cc_priv_data`.  The `dev` field is used for log
calls only and is left out; pointers are kept as their values. -/
structure s32cc_priv_data where
  ctrl_sts : Int
  intf_mode : phy_interface_t
  tx_clk : Int
  rx_clk : Int
deriving DecidableEq, Repr

/-- The fields of `struct stmmac_axi4_ace_ctrl` (all `u32`). -/
structure stmmac_axi4_ace_ctrl where
  tx_ar_reg : Nat
  rx_aw_reg : Nat
  txrx_awar_reg : Nat
deriving DecidableEq, Repr

/-- The fields of `struct stmmac_safety_feature_cfg` that the driver sets. -/
structure stmmac_safety_feature_cfg where
  tsoee : Nat
  mrxpee : Nat
  mestee : Nat
  mrxee : Nat
  mtxee : Nat
  epsi : Nat
  edpp : Nat
  prtyen : Nat
  tmouten : Nat
deriving DecidableEq, Repr

/-- The three callbacks the driver installs in `plat_dat`. -/
inductive callback
  | s32cc_gmac_init
  | s32cc_gmac_exit
  | s32cc_fix_speed
deriving DecidableEq, Repr

/-- The fields of `struct plat_stmmacenet_data` that the driver reads or writes.
Pointer fields to structures are `Option`s, `none` being `NULL`. -/
structure plat_stmmacenet_data where
  phy_interface : phy_interface_t
  bsp_priv : Int
  axi4_ace_ctrl : Option stmmac_axi4_ace_ctrl
  has_gmac4 : Bool
  pmt : Nat
  init : Option callback
  exit : Option callback
  fix_mac_speed : Option callback
  safety_feat_cfg : Option stmmac_safety_feature_cfg
deriving DecidableEq, Repr

/-- A call the driver makes to the outside, with its arguments and, where the driver
reads it, the value the call returned: the clock framework calls, the register write
and the calls into the stmmac core.  Allocations and resource lookups have no effect of
their own and show only through their answers (`probe_env`). -/
inductive event
  | clk_prepare_enable (clk : Int) (ret : Int)
  | clk_disable_unprepare (clk : Int)
  | clk_set_rate (clk : Int) (rate : Nat)
  | writel (value : Nat) (addr : Int)
  | devm_clk_get (con_id : String) (clk : Int)
  | stmmac_dvr_probe (plat : plat_stmmacenet_data) (ret : Int)
  | stmmac_remove_config_dt
deriving DecidableEq, Repr

/-- Return value and outside calls of one run of a driver function. -/
structure outcome where
  ret : Int
  trace : List event
deriving DecidableEq, Repr

/-! ## `dwmac-s32cc.c` -/

/-- Source function `s32cc_gmac_init`.  `en_tx` and `en_rx` are what the two
`clk_prepare_enable` calls return. -/
def s32cc_gmac_init (gmac : s32cc_priv_data) (en_tx en_rx : Int) : outcome :=
  let ret := en_tx
  if ret ≠ 0 then
    { ret := ret, trace := [event.clk_prepare_enable gmac.tx_clk en_tx] }
  else
    let ret := en_rx
    if ret ≠ 0 then
      { ret := ret,
        trace := [event.clk_prepare_enable gmac.tx_clk en_tx,
                  event.clk_prepare_enable gmac.rx_clk en_rx] }
    else
      let intf_sel : Option Nat :=
        match gmac.intf_mode with
        | PHY_INTERFACE_MODE_SGMII => some PHY_INTF_SEL_SGMII
        | PHY_INTERFACE_MODE_RGMII => some PHY_INTF_SEL_RGMII
        | PHY_INTERFACE_MODE_RGMII_ID => some PHY_INTF_SEL_RGMII
        | PHY_INTERFACE_MODE_RGMII_TXID => some PHY_INTF_SEL_RGMII
        | PHY_INTERFACE_MODE_RGMII_RXID => some PHY_INTF_SEL_RGMII
        | PHY_INTERFACE_MODE_RMII => some PHY_INTF_SEL_RMII
        | PHY_INTERFACE_MODE_MII => some PHY_INTF_SEL_MII
        | _ => none
      match intf_sel with
      | none =>
        { ret := -EINVAL,
          trace := [event.clk_prepare_enable gmac.tx_clk en_tx,
                    event.clk_prepare_enable gmac.rx_clk en_rx] }
      | some sel =>
        { ret := 0,
          trace := [event.clk_prepare_enable gmac.tx_clk en_tx,
                    event.clk_prepare_enable gmac.rx_clk en_rx,
                    event.writel (to_u32 sel) gmac.ctrl_sts] }

/-- Source function `s32cc_gmac_exit`. -/
def s32cc_gmac_exit (gmac : s32cc_priv_data) : List event :=
  [event.clk_disable_unprepare gmac.tx_clk, event.clk_disable_unprepare gmac.rx_clk]

/-- Source function `s32cc_fix_speed`; the result is the list of calls it makes. -/
def s32cc_fix_speed (gmac : s32cc_priv_data) (speed : Nat) : List event :=
  if gmac.intf_mode = PHY_INTERFACE_MODE_SGMII then
    []
  else if speed = SPEED_1000 then
    [event.clk_set_rate gmac.tx_clk GMAC_TX_RATE_125M]
  else if speed = SPEED_100 then
    [event.clk_set_rate gmac.tx_clk GMAC_TX_RATE_25M]
  else if speed = SPEED_10 then
    [event.clk_set_rate gmac.tx_clk GMAC_TX_RATE_2M5]
  else
    []

/-- Source function `s32cc_config_cache_coherency`.  `alloc_ok` tells whether
`devm_kzalloc` returned memory; the result is the return value and the updated
`plat_dat`. -/
def s32cc_config_cache_coherency (plat_dat : plat_stmmacenet_data) (alloc_ok : Bool) :
    Int × plat_stmmacenet_data :=
  if !alloc_ok then
    (-ENOMEM, { plat_dat with axi4_ace_ctrl := none })
  else
    (0, { plat_dat with
          axi4_ace_ctrl := some
            { tx_ar_reg := to_u32 ((ACE_CONTROL_SIGNALS <<< 16)
                ||| (ACE_CONTROL_SIGNALS <<< 8) ||| ACE_CONTROL_SIGNALS),
              rx_aw_reg := to_u32 ((ACE_CONTROL_SIGNALS <<< 24)
                ||| (ACE_CONTROL_SIGNALS <<< 16) ||| (ACE_CONTROL_SIGNALS <<< 8)
                ||| ACE_CONTROL_SIGNALS),
              txrx_awar_reg := to_u32 ((ACE_PROTECTION <<< 20)
                ||| (ACE_PROTECTION <<< 16) ||| (ACE_CONTROL_SIGNALS <<< 8)
                ||| ACE_CONTROL_SIGNALS) } })

/-- What the outside answers during one run of `s32cc_dwmac_probe`: the return code or
returned pointer of each external call, in the order the probe makes them.
`devm_ioremap_resource` stands for the pair `platform_get_resource` and
`devm_ioremap_resource`, the first of which only feeds the second.
`stmmac_probe_config_dt` returns either an `ERR_PTR` or a pointer to a filled-in
`plat_stmmacenet_data`; `plat` is that structure. -/
structure probe_env where
  stmmac_get_platform_resources : Int
  devm_kzalloc_gmac : Int
  devm_ioremap_resource : Int
  stmmac_probe_config_dt : Int
  plat : plat_stmmacenet_data
  of_dma_is_coherent : Bool
  devm_kzalloc_axi4_ace_ctrl : Bool
  devm_clk_get_tx : Int
  devm_clk_get_rx : Int
  clk_prepare_enable_tx : Int
  clk_prepare_enable_rx : Int
  devm_kzalloc_safety_feat_cfg : Bool
  stmmac_dvr_probe : Int
deriving DecidableEq, Repr

/-- Label `err_remove_config_dt` of `s32cc_dwmac_probe`. -/
def err_remove_config_dt (ret : Int) (trace : List event) : outcome :=
  { ret := ret, trace := trace ++ [event.stmmac_remove_config_dt] }

/-- Label `err_gmac_exit` of `s32cc_dwmac_probe`, which falls through to
`err_remove_config_dt`. -/
def err_gmac_exit (gmac : s32cc_priv_data) (ret : Int) (trace : List event) : outcome :=
  err_remove_config_dt ret (trace ++ s32cc_gmac_exit gmac)

/-- Memory as `devm_kzalloc` hands it out for a `stmmac_safety_feature_cfg`: zeroed. -/
def kzalloc_safety_feat_cfg : stmmac_safety_feature_cfg :=
  { tsoee := 0, mrxpee := 0, mestee := 0, mrxee := 0, mtxee := 0,
    epsi := 0, edpp := 0, prtyen := 0, tmouten := 0 }

/-- Source function `s32cc_dwmac_probe`. -/
def s32cc_dwmac_probe (env : probe_env) : outcome :=
  let ret := env.stmmac_get_platform_resources
  if ret ≠ 0 then
    { ret := ret, trace := [] }
  else
    let gmac_ptr := env.devm_kzalloc_gmac
    if gmac_ptr = NULL then
      { ret := long_to_int (PTR_ERR gmac_ptr), trace := [] }
    else
      let ctrl_sts := env.devm_ioremap_resource
      if IS_ERR_OR_NULL ctrl_sts then
        { ret := long_to_int (PTR_ERR ctrl_sts), trace := [] }
      else
        let plat_ptr := env.stmmac_probe_config_dt
        if IS_ERR plat_ptr then
          { ret := long_to_int (PTR_ERR plat_ptr), trace := [] }
        else
          let plat_dat := { env.plat with bsp_priv := gmac_ptr }
          let clk_names : Option (String × String) :=
            match plat_dat.phy_interface with
            | PHY_INTERFACE_MODE_SGMII => some ("tx_pcs", "rx_pcs")
            | PHY_INTERFACE_MODE_RGMII => some ("tx_rgmii", "rx_rgmii")
            | PHY_INTERFACE_MODE_RGMII_ID => some ("tx_rgmii", "rx_rgmii")
            | PHY_INTERFACE_MODE_RGMII_TXID => some ("tx_rgmii", "rx_rgmii")
            | PHY_INTERFACE_MODE_RGMII_RXID => some ("tx_rgmii", "rx_rgmii")
            | PHY_INTERFACE_MODE_RMII => some ("tx_rmii", "rx_rmii")
            | PHY_INTERFACE_MODE_MII => some ("tx_mii", "rx_mii")
            | _ => none
          match clk_names with
          | none => { ret := -EINVAL, trace := [] }
          | some (tx_clk, rx_clk) =>
            let intf_mode := plat_dat.phy_interface
            let coherency : Int × plat_stmmacenet_data :=
              if env.of_dma_is_coherent then
                s32cc_config_cache_coherency plat_dat env.devm_kzalloc_axi4_ace_ctrl
              else
                (ret, plat_dat)
            let ret := coherency.1
            let plat_dat := coherency.2
            if env.of_dma_is_coherent && decide (ret ≠ 0) then
              err_remove_config_dt ret []
            else
              let tx_ptr := env.devm_clk_get_tx
              let trace := [event.devm_clk_get tx_clk tx_ptr]
              if IS_ERR tx_ptr then
                err_remove_config_dt (long_to_int (PTR_ERR tx_ptr)) trace
              else
                let rx_ptr := env.devm_clk_get_rx
                let trace := trace ++ [event.devm_clk_get rx_clk rx_ptr]
                if IS_ERR rx_ptr then
                  err_remove_config_dt (long_to_int (PTR_ERR rx_ptr)) trace
                else
                  let gmac : s32cc_priv_data :=
                    { ctrl_sts := ctrl_sts, intf_mode := intf_mode,
                      tx_clk := tx_ptr, rx_clk := rx_ptr }
                  let init := s32cc_gmac_init gmac env.clk_prepare_enable_tx
                    env.clk_prepare_enable_rx
                  let ret := init.ret
                  let trace := trace ++ init.trace
                  if ret ≠ 0 then
                    err_remove_config_dt ret trace
                  else
                    let plat_dat :=
                      { plat_dat with
                        has_gmac4 := true, pmt := 1,
                        init := some callback.s32cc_gmac_init,
                        exit := some callback.s32cc_gmac_exit,
                        fix_mac_speed := some callback.s32cc_fix_speed }
                    if !env.devm_kzalloc_safety_feat_cfg then
                      err_gmac_exit gmac ret trace
                    else
                      let plat_dat :=
                        { plat_dat with
                          safety_feat_cfg := some
                            { kzalloc_safety_feat_cfg with
                              tsoee := 1, mrxpee := 1, mestee := 1, mrxee := 1,
                              mtxee := 1, epsi := 1, edpp := 1, prtyen := 1,
                              tmouten := 1 } }
                      let ret := env.stmmac_dvr_probe
                      let trace := trace ++ [event.stmmac_dvr_probe plat_dat ret]
                      if ret ≠ 0 then
                        err_gmac_exit gmac ret trace
                      else
                        { ret := 0, trace := trace }

/-- Modelled from the spec: the clock framework (`clk_prepare_enable`,
`clk_disable_unprepare`) is not among the sources.  A `clk_prepare_enable` that
returns 0 raises the enable count of its clock by one, one that fails leaves it as it
was, and `clk_disable_unprepare` lowers it by one.  The result is the net change
that a trace makes to the enable count of `clk`. -/
def enable_count_change (clk : Int) : List event → Int
  | [] => 0
  | event.clk_prepare_enable c ret :: rest =>
    (if c = clk ∧ ret = 0 then 1 else 0) + enable_count_change clk rest
  | event.clk_disable_unprepare c :: rest =>
    (if c = clk then -1 else 0) + enable_count_change clk rest
  | _ :: rest => enable_count_change clk rest

/-- The values that a trace writes to the register at `addr`, in order. -/
def writes_to (addr : Int) : List event → List Nat
  | [] => []
  | event.writel value a :: rest =>
    if a = addr then value :: writes_to addr rest else writes_to addr rest
  | _ :: rest => writes_to addr rest

/-! ## `pinctrl-s32g274.c` -/

/-- The fields `number` and `name` of `struct pinctrl_pin_desc`. -/
structure pinctrl_pin_desc where
  number : Nat
  name : String
deriving DecidableEq, Repr

/-- Static pad table `s32g2_pinctrl0_pads`.  The macro `S32_PINCTRL_PIN` comes from
`pinctrl-s32.h` and the pin constants from `pinctrl-s32g2.h`, neither of which is
among the sources: the macro is a parameter, applied to the name of each constant. -/
def s32g2_pinctrl0_pads (S32_PINCTRL_PIN : String → pinctrl_pin_desc) :
    List pinctrl_pin_desc :=
  [ S32_PINCTRL_PIN "S32G2_GMAC0_MDC",
    S32_PINCTRL_PIN "S32G2_GMAC0_MDIO_OUT",
    S32_PINCTRL_PIN "S32G2_GMAC0_TXCLK_OUT",
    S32_PINCTRL_PIN "S32G2_GMAC0_TXEN_OUT",
    S32_PINCTRL_PIN "S32G2_GMAC0_TXD0_OUT",
    S32_PINCTRL_PIN "S32G2_GMAC0_TXD1_OUT",
    S32_PINCTRL_PIN "S32G2_GMAC0_TXD2_OUT",
    S32_PINCTRL_PIN "S32G2_GMAC0_TXD3_OUT",
    S32_PINCTRL_PIN "S32G2_GMAC0_RXCLK_OUT",
    S32_PINCTRL_PIN "S32G2_GMAC0_RXDV_OUT",
    S32_PINCTRL_PIN "S32G2_GMAC0_RXD0_OUT",
    S32_PINCTRL_PIN "S32G2_GMAC0_RXD1_OUT",
    S32_PINCTRL_PIN "S32G2_GMAC0_RXD2_OUT",
    S32_PINCTRL_PIN "S32G2_GMAC0_RXD3_OUT",
    S32_PINCTRL_PIN "S32G2_GMAC0_MDIO_IN",
    S32_PINCTRL_PIN "S32G2_GMAC0_RXD0_IN",
    S32_PINCTRL_PIN "S32G2_GMAC0_RXD1_IN",
    S32_PINCTRL_PIN "S32G2_GMAC0_RXD2_IN",
    S32_PINCTRL_PIN "S32G2_GMAC0_RXD3_IN",
    S32_PINCTRL_PIN "S32G2_GMAC0_RXCLK_IN",
    S32_PINCTRL_PIN "S32G2_GMAC0_RXDV_IN",
    S32_PINCTRL_PIN "S32G2_GMAC0_TXCLK_IN" ]

/-- The fields `pins` and `npins` of `struct s32_pinctrl_soc_info`. -/
structure s32_pinctrl_soc_info where
  pins : List pinctrl_pin_desc
  npins : Nat
deriving DecidableEq, Repr

/-- Static structure `s32g2_pinctrl0_info`; `ARRAY_SIZE` is the length of the table. -/
def s32g2_pinctrl0_info (S32_PINCTRL_PIN : String → pinctrl_pin_desc) :
    s32_pinctrl_soc_info :=
  { pins := s32g2_pinctrl0_pads S32_PINCTRL_PIN,
    npins := (s32g2_pinctrl0_pads S32_PINCTRL_PIN).length }

/-- The fields `compatible` and `data` of `struct of_device_id`. -/
structure of_device_id where
  compatible : String
  data : s32_pinctrl_soc_info
deriving DecidableEq, Repr

/-- Match table `s32g2_pinctrl_of_match`, without its empty sentinel entry. -/
def s32g2_pinctrl_of_match (S32_PINCTRL_PIN : String → pinctrl_pin_desc) :
    List of_device_id :=
  [ { compatible := "nxp,s32g2-siul2-pinctrl0",
      data := s32g2_pinctrl0_info S32_PINCTRL_PIN } ]

/-- Return value of `s32g274_pinctrl_probe` together with the arguments of every call
it made to `s32_pinctrl_probe`. -/
structure pinctrl_outcome where
  ret : Int
  core_calls : List s32_pinctrl_soc_info
deriving DecidableEq, Repr

/-- Source function `s32g274_pinctrl_probe`.  The kernel function `of_match_device`
and the core driver function `s32_pinctrl_probe` are not among the sources and are
parameters, both taken for the device being probed: `of_match_device` maps a match
table to the entry it selects (`none` being `NULL`), `s32_pinctrl_probe` maps the
SoC info to its return value. -/
def s32g274_pinctrl_probe (S32_PINCTRL_PIN : String → pinctrl_pin_desc)
    (of_match_device : List of_device_id → Option of_device_id)
    (s32_pinctrl_probe : s32_pinctrl_soc_info → Int) : pinctrl_outcome :=
  match of_match_device (s32g2_pinctrl_of_match S32_PINCTRL_PIN) with
  | none => { ret := -ENODEV, core_calls := [] }
  | some of_id => { ret := s32_pinctrl_probe of_id.data, core_calls := [of_id.data] }

/-! ## Concrete inputs used below -/

/-- Private data with two different clocks and the given interface mode. -/
def sample_gmac (mode : phy_interface_t) : s32cc_priv_data :=
  { ctrl_sts := 4096, intf_mode := mode, tx_clk := 8192, rx_clk := 12288 }

/-- A `plat_dat` as `stmmac_probe_config_dt` returns it, with the given mode. -/
def sample_plat (mode : phy_interface_t) : plat_stmmacenet_data :=
  { phy_interface := mode, bsp_priv := 0, axi4_ace_ctrl := none, has_gmac4 := false,
    pmt := 0, init := none, exit := none, fix_mac_speed := none,
    safety_feat_cfg := none }

/-- A probe run in which every external call succeeds. -/
def sample_env (mode : phy_interface_t) (coherent : Bool) : probe_env :=
  { stmmac_get_platform_resources := 0,
    devm_kzalloc_gmac := 16384,
    devm_ioremap_resource := 4096,
    stmmac_probe_config_dt := 20480,
    plat := sample_plat mode,
    of_dma_is_coherent := coherent,
    devm_kzalloc_axi4_ace_ctrl := true,
    devm_clk_get_tx := 8192,
    devm_clk_get_rx := 12288,
    clk_prepare_enable_tx := 0,
    clk_prepare_enable_rx := 0,
    devm_kzalloc_safety_feat_cfg := true,
    stmmac_dvr_probe := 0 }

/-- A stand-in for the macro `S32_PINCTRL_PIN`: pin number 0 and the constant's name. -/
def sample_pin (pin : String) : pinctrl_pin_desc := { number := 0, name := pin }


/-! ## Properties of `s32cc_gmac_init` -/

/-- C1, as amended: for each of the seven modes SGMII, RGMII, RGMII_ID, RGMII_TXID,
RGMII_RXID, RMII and MII, with both `clk_prepare_enable` calls returning 0,
`s32cc_gmac_init` returns 0 and, after the two clock calls, makes exactly one register
write, to `ctrl_sts`, of 0x01 for SGMII, 0x02 for the four RGMII modes, 0x08 for RMII
and 0x00 for MII. -/
theorem s32cc_gmac_init_selects_interface (gmac : s32cc_priv_data) :
    (gmac.intf_mode = PHY_INTERFACE_MODE_SGMII →
      s32cc_gmac_init gmac 0 0 =
        { ret := 0,
          trace := [event.clk_prepare_enable gmac.tx_clk 0,
                    event.clk_prepare_enable gmac.rx_clk 0,
                    event.writel 0x01 gmac.ctrl_sts] }) ∧
    (gmac.intf_mode = PHY_INTERFACE_MODE_RGMII ∨
      gmac.intf_mode = PHY_INTERFACE_MODE_RGMII_ID ∨
      gmac.intf_mode = PHY_INTERFACE_MODE_RGMII_TXID ∨
      gmac.intf_mode = PHY_INTERFACE_MODE_RGMII_RXID →
      s32cc_gmac_init gmac 0 0 =
        { ret := 0,
          trace := [event.clk_prepare_enable gmac.tx_clk 0,
                    event.clk_prepare_enable gmac.rx_clk 0,
                    event.writel 0x02 gmac.ctrl_sts] }) ∧
    (gmac.intf_mode = PHY_INTERFACE_MODE_RMII →
      s32cc_gmac_init gmac 0 0 =
        { ret := 0,
          trace := [event.clk_prepare_enable gmac.tx_clk 0,
                    event.clk_prepare_enable gmac.rx_clk 0,
                    event.writel 0x08 gmac.ctrl_sts] }) ∧
    (gmac.intf_mode = PHY_INTERFACE_MODE_MII →
      s32cc_gmac_init gmac 0 0 =
        { ret := 0,
          trace := [event.clk_prepare_enable gmac.tx_clk 0,
                    event.clk_prepare_enable gmac.rx_clk 0,
                    event.writel 0x00 gmac.ctrl_sts] }) := by
  refine ⟨?_, ?_, ?_, ?_⟩
  · intro h
    simp [s32cc_gmac_init, h, PHY_INTF_SEL_SGMII, to_u32]
  · rintro (h | h | h | h) <;> simp [s32cc_gmac_init, h, PHY_INTF_SEL_RGMII, to_u32]
  · intro h
    simp [s32cc_gmac_init, h, PHY_INTF_SEL_RMII, to_u32]
  · intro h
    simp [s32cc_gmac_init, h, PHY_INTF_SEL_MII, to_u32]

/-- C1 as stated fails for a PHY interface mode that the switch does not name (GMII
is one): with both `clk_prepare_enable` calls returning 0, `s32cc_gmac_init` returns
-22 and writes nothing to `ctrl_sts`, so it neither returns 0 nor writes one value. -/
theorem s32cc_gmac_init_unnamed_mode_no_write :
    (s32cc_gmac_init (sample_gmac (PHY_INTERFACE_MODE_OTHER 0)) 0 0).ret = -22 ∧
    writes_to (sample_gmac (PHY_INTERFACE_MODE_OTHER 0)).ctrl_sts
      (s32cc_gmac_init (sample_gmac (PHY_INTERFACE_MODE_OTHER 0)) 0 0).trace = [] ∧
    ¬ ((s32cc_gmac_init (sample_gmac (PHY_INTERFACE_MODE_OTHER 0)) 0 0).ret = 0 ∧
       ∃ value,
        writes_to (sample_gmac (PHY_INTERFACE_MODE_OTHER 0)).ctrl_sts
          (s32cc_gmac_init (sample_gmac (PHY_INTERFACE_MODE_OTHER 0)) 0 0).trace
          = [value]) := by
  refine ⟨by decide, by decide, ?_⟩
  rintro ⟨h, -⟩
  revert h
  decide

/-- Instance of C1 at an RGMII_ID device: the value 0x02 is the only one written to
the register at address 4096. -/
theorem s32cc_gmac_init_selects_interface_witness :
    (sample_gmac PHY_INTERFACE_MODE_RGMII_ID).intf_mode = PHY_INTERFACE_MODE_RGMII_ID ∧
    s32cc_gmac_init (sample_gmac PHY_INTERFACE_MODE_RGMII_ID) 0 0 =
      { ret := 0,
        trace := [event.clk_prepare_enable 8192 0, event.clk_prepare_enable 12288 0,
                  event.writel 0x02 4096] } :=
  ⟨rfl, (s32cc_gmac_init_selects_interface
    (sample_gmac PHY_INTERFACE_MODE_RGMII_ID)).2.1 (Or.inr (Or.inl rfl))⟩

/-- C9 fails on the code: when the rx clock cannot be enabled after the tx clock was,
`s32cc_gmac_init` returns the error (-5 here) with the tx clock enabled once more than
before the call, and for a mode outside the switch it returns -22 with both clocks
enabled once more; no `clk_disable_unprepare` call is made on either path. -/
theorem s32cc_gmac_init_leaves_clocks_enabled :
    (s32cc_gmac_init (sample_gmac PHY_INTERFACE_MODE_SGMII) 0 (-5)).ret = -5 ∧
    (s32cc_gmac_init (sample_gmac PHY_INTERFACE_MODE_SGMII) 0 (-5)).trace =
      [event.clk_prepare_enable 8192 0, event.clk_prepare_enable 12288 (-5)] ∧
    enable_count_change (sample_gmac PHY_INTERFACE_MODE_SGMII).tx_clk
      (s32cc_gmac_init (sample_gmac PHY_INTERFACE_MODE_SGMII) 0 (-5)).trace = 1 ∧
    (s32cc_gmac_init (sample_gmac (PHY_INTERFACE_MODE_OTHER 0)) 0 0).ret = -22 ∧
    enable_count_change (sample_gmac (PHY_INTERFACE_MODE_OTHER 0)).tx_clk
      (s32cc_gmac_init (sample_gmac (PHY_INTERFACE_MODE_OTHER 0)) 0 0).trace = 1 ∧
    enable_count_change (sample_gmac (PHY_INTERFACE_MODE_OTHER 0)).rx_clk
      (s32cc_gmac_init (sample_gmac (PHY_INTERFACE_MODE_OTHER 0)) 0 0).trace = 1 ∧
    (s32cc_dwmac_probe
      { sample_env PHY_INTERFACE_MODE_SGMII false with clk_prepare_enable_rx := -5 }).ret
      = -5 ∧
    enable_count_change 8192
      (s32cc_dwmac_probe
        { sample_env PHY_INTERFACE_MODE_SGMII false with
          clk_prepare_enable_rx := -5 }).trace = 1 := by
  refine ⟨?_, ?_, ?_, ?_, ?_, ?_, ?_, ?_⟩ <;> decide

/-! ## Properties of `s32cc_fix_speed` -/

/-- C2: in every mode other than SGMII, `s32cc_fix_speed` makes exactly one call,
`clk_set_rate` on `tx_clk`, with 125000000 for speed 1000, 25000000 for speed 100 and
2500000 for speed 10. -/
theorem s32cc_fix_speed_sets_tx_rate (gmac : s32cc_priv_data)
    (h : gmac.intf_mode ≠ PHY_INTERFACE_MODE_SGMII) :
    s32cc_fix_speed gmac 1000 = [event.clk_set_rate gmac.tx_clk 125000000] ∧
    s32cc_fix_speed gmac 100 = [event.clk_set_rate gmac.tx_clk 25000000] ∧
    s32cc_fix_speed gmac 10 = [event.clk_set_rate gmac.tx_clk 2500000] := by
  simp [s32cc_fix_speed, h, SPEED_1000, SPEED_100, SPEED_10, GMAC_TX_RATE_125M,
    GMAC_TX_RATE_25M, GMAC_TX_RATE_2M5]

/-- Instance of C2 at an RMII device whose tx clock is at address 8192. -/
theorem s32cc_fix_speed_sets_tx_rate_witness :
    s32cc_fix_speed (sample_gmac PHY_INTERFACE_MODE_RMII) 1000 =
      [event.clk_set_rate 8192 125000000] ∧
    s32cc_fix_speed (sample_gmac PHY_INTERFACE_MODE_RMII) 100 =
      [event.clk_set_rate 8192 25000000] ∧
    s32cc_fix_speed (sample_gmac PHY_INTERFACE_MODE_RMII) 10 =
      [event.clk_set_rate 8192 2500000] :=
  s32cc_fix_speed_sets_tx_rate (sample_gmac PHY_INTERFACE_MODE_RMII) (by decide)

/-- C6, as amended: `s32cc_fix_speed` makes no call at all in SGMII mode, whatever the
speed, and none in any mode for a speed other than 10, 100 and 1000; every call it
makes is a `clk_set_rate` on `tx_clk`, so that it makes none on `rx_clk` whenever
`rx_clk` is a clock other than `tx_clk`. -/
theorem s32cc_fix_speed_frame (gmac : s32cc_priv_data) (speed : Nat) :
    (gmac.intf_mode = PHY_INTERFACE_MODE_SGMII → s32cc_fix_speed gmac speed = []) ∧
    (speed ≠ 10 ∧ speed ≠ 100 ∧ speed ≠ 1000 → s32cc_fix_speed gmac speed = []) ∧
    (∀ e ∈ s32cc_fix_speed gmac speed, ∃ rate, e = event.clk_set_rate gmac.tx_clk rate) ∧
    (gmac.rx_clk ≠ gmac.tx_clk →
      ∀ rate, event.clk_set_rate gmac.rx_clk rate ∉ s32cc_fix_speed gmac speed) := by
  refine ⟨?_, ?_, ?_, ?_⟩
  · intro h
    simp [s32cc_fix_speed, h]
  · rintro ⟨h10, h100, h1000⟩
    simp [s32cc_fix_speed, SPEED_1000, SPEED_100, SPEED_10, h10, h100, h1000]
  · intro e he
    unfold s32cc_fix_speed at he
    split_ifs at he <;> simp_all
  · intro hne rate hmem
    unfold s32cc_fix_speed at hmem
    split_ifs at hmem <;> simp_all

/-- C6 as stated fails when `rx_clk` and `tx_clk` are the same clock: the probe accepts
two `devm_clk_get` answers that are one handle (it returns 0), and on such a device
`s32cc_fix_speed` at speed 1000 calls `clk_set_rate` on the clock that `rx_clk` holds,
so the rate of `rx_clk` is set to 125000000. -/
theorem s32cc_fix_speed_sets_rate_of_shared_clock :
    (s32cc_dwmac_probe
      { sample_env PHY_INTERFACE_MODE_RGMII false with devm_clk_get_rx := 8192 }).ret = 0 ∧
    event.devm_clk_get "tx_rgmii" 8192 ∈
      (s32cc_dwmac_probe
        { sample_env PHY_INTERFACE_MODE_RGMII false with devm_clk_get_rx := 8192 }).trace ∧
    event.devm_clk_get "rx_rgmii" 8192 ∈
      (s32cc_dwmac_probe
        { sample_env PHY_INTERFACE_MODE_RGMII false with devm_clk_get_rx := 8192 }).trace ∧
    ({ sample_gmac PHY_INTERFACE_MODE_RGMII with rx_clk := 8192 } : s32cc_priv_data).rx_clk
      = 8192 ∧
    s32cc_fix_speed { sample_gmac PHY_INTERFACE_MODE_RGMII with rx_clk := 8192 } 1000 =
      [event.clk_set_rate 8192 125000000] ∧
    ¬ (∀ rate, event.clk_set_rate
        ({ sample_gmac PHY_INTERFACE_MODE_RGMII with rx_clk := 8192 } :
          s32cc_priv_data).rx_clk rate ∉
        s32cc_fix_speed { sample_gmac PHY_INTERFACE_MODE_RGMII with rx_clk := 8192 }
          1000) := by
  refine ⟨by decide, by decide, by decide, rfl, by decide, ?_⟩
  intro h
  exact h 125000000 (by decide)

/-- Instance of C6: SGMII at speed 1000, RGMII at the unsupported speed 2500, and RGMII
at speed 100 where the one call is on the tx clock 8192 and not on the rx clock 12288. -/
theorem s32cc_fix_speed_frame_witness :
    s32cc_fix_speed (sample_gmac PHY_INTERFACE_MODE_SGMII) 1000 = [] ∧
    s32cc_fix_speed (sample_gmac PHY_INTERFACE_MODE_RGMII) 2500 = [] ∧
    (∀ rate, event.clk_set_rate 12288 rate ∉
      s32cc_fix_speed (sample_gmac PHY_INTERFACE_MODE_RGMII) 100) :=
  ⟨(s32cc_fix_speed_frame (sample_gmac PHY_INTERFACE_MODE_SGMII) 1000).1 rfl,
   (s32cc_fix_speed_frame (sample_gmac PHY_INTERFACE_MODE_RGMII) 2500).2.1 (by decide),
   (s32cc_fix_speed_frame (sample_gmac PHY_INTERFACE_MODE_RGMII) 100).2.2.2 (by decide)⟩

/-! ## Properties of `s32cc_config_cache_coherency` -/

/-- C3: when the allocation succeeds, `s32cc_config_cache_coherency` returns 0 and sets
`tx_ar_reg = 0x002f2f2f`, `rx_aw_reg = 0x2f2f2f2f`, `txrx_awar_reg = 0x00222f2f`
whatever `plat_dat` held, leaving the other fields as they were; `ACE_CONTROL_SIGNALS`
is `(0x2 << 4) | 0xf = 0x2f`; every shifted operand and every combined value stays
below 2^31, so nothing is lost in 32 bits; when the allocation fails it returns
-ENOMEM (-12) with `axi4_ace_ctrl` NULL. -/
theorem s32cc_config_cache_coherency_pattern (plat_dat : plat_stmmacenet_data) :
    s32cc_config_cache_coherency plat_dat true =
      (0, { plat_dat with
            axi4_ace_ctrl := some
              { tx_ar_reg := 0x002f2f2f, rx_aw_reg := 0x2f2f2f2f,
                txrx_awar_reg := 0x00222f2f } }) ∧
    s32cc_config_cache_coherency plat_dat false =
      (-12, { plat_dat with axi4_ace_ctrl := none }) ∧
    ACE_CONTROL_SIGNALS = 0x2f ∧
    ACE_CONTROL_SIGNALS = (0x2 <<< 4) ||| 0xf ∧
    ACE_CONTROL_SIGNALS <<< 24 < 2 ^ 31 ∧
    ACE_CONTROL_SIGNALS <<< 16 < 2 ^ 31 ∧
    ACE_CONTROL_SIGNALS <<< 8 < 2 ^ 31 ∧
    ACE_PROTECTION <<< 20 < 2 ^ 31 ∧
    ACE_PROTECTION <<< 16 < 2 ^ 31 ∧
    (ACE_CONTROL_SIGNALS <<< 16) ||| (ACE_CONTROL_SIGNALS <<< 8) ||| ACE_CONTROL_SIGNALS
      = 0x002f2f2f ∧
    (ACE_CONTROL_SIGNALS <<< 24) ||| (ACE_CONTROL_SIGNALS <<< 16)
      ||| (ACE_CONTROL_SIGNALS <<< 8) ||| ACE_CONTROL_SIGNALS = 0x2f2f2f2f ∧
    (ACE_PROTECTION <<< 20) ||| (ACE_PROTECTION <<< 16) ||| (ACE_CONTROL_SIGNALS <<< 8)
      ||| ACE_CONTROL_SIGNALS = 0x00222f2f := by
  refine ⟨?_, ?_, ?_, ?_, ?_, ?_, ?_, ?_, ?_, ?_, ?_, ?_⟩
  · have h1 : to_u32 ((ACE_CONTROL_SIGNALS <<< 16) ||| (ACE_CONTROL_SIGNALS <<< 8)
        ||| ACE_CONTROL_SIGNALS) = 0x002f2f2f := by decide
    have h2 : to_u32 ((ACE_CONTROL_SIGNALS <<< 24) ||| (ACE_CONTROL_SIGNALS <<< 16)
        ||| (ACE_CONTROL_SIGNALS <<< 8) ||| ACE_CONTROL_SIGNALS) = 0x2f2f2f2f := by decide
    have h3 : to_u32 ((ACE_PROTECTION <<< 20) ||| (ACE_PROTECTION <<< 16)
        ||| (ACE_CONTROL_SIGNALS <<< 8) ||| ACE_CONTROL_SIGNALS) = 0x00222f2f := by decide
    simp only [s32cc_config_cache_coherency, h1, h2, h3]
    rfl
  · simp [s32cc_config_cache_coherency, ENOMEM]
  all_goals decide

/-! ## Properties of `s32cc_dwmac_probe` -/

/-- No call made by `s32cc_gmac_init` is a call to `stmmac_dvr_probe`. -/
theorem s32cc_gmac_init_no_dvr_probe (gmac : s32cc_priv_data) (en_tx en_rx : Int)
    (plat : plat_stmmacenet_data) (r : Int) :
    event.stmmac_dvr_probe plat r ∉ (s32cc_gmac_init gmac en_tx en_rx).trace := by
  unfold s32cc_gmac_init
  by_cases ht : en_tx = 0 <;> by_cases hr : en_rx = 0 <;>
    cases gmac.intf_mode <;> simp [ht, hr]

/-- C5: every `stmmac_dvr_probe` call that `s32cc_dwmac_probe` makes, whatever the
external calls answered (interface mode and DMA coherency included), passes a
`plat_dat` whose `safety_feat_cfg` has tsoee, mrxpee, mestee, mrxee, mtxee, epsi, edpp,
prtyen and tmouten all equal to 1. -/
theorem s32cc_dwmac_probe_safety_flags (env : probe_env) (plat : plat_stmmacenet_data)
    (r : Int) (h : event.stmmac_dvr_probe plat r ∈ (s32cc_dwmac_probe env).trace) :
    plat.safety_feat_cfg = some
      { tsoee := 1, mrxpee := 1, mestee := 1, mrxee := 1, mtxee := 1,
        epsi := 1, edpp := 1, prtyen := 1, tmouten := 1 } := by
  have hinit := s32cc_gmac_init_no_dvr_probe
  simp only [s32cc_dwmac_probe] at h
  by_cases h0 : env.stmmac_get_platform_resources ≠ 0
  · rw [if_pos h0] at h
    simp at h
  rw [if_neg h0] at h
  by_cases hg : env.devm_kzalloc_gmac = NULL
  · rw [if_pos hg] at h
    simp at h
  rw [if_neg hg] at h
  by_cases hc : IS_ERR_OR_NULL env.devm_ioremap_resource = true
  · rw [if_pos hc] at h
    simp at h
  rw [if_neg hc] at h
  by_cases hp : IS_ERR env.stmmac_probe_config_dt = true
  · rw [if_pos hp] at h
    simp at h
  rw [if_neg hp] at h
  split at h
  · simp at h
  rename_i tx_name rx_name hnames
  split_ifs at h
  all_goals
    simp only [err_remove_config_dt, err_gmac_exit, s32cc_gmac_exit, List.mem_append,
      List.mem_cons, List.mem_singleton, hinit, false_or, or_false, reduceCtorEq,
      List.not_mem_nil, event.stmmac_dvr_probe.injEq, List.nil_append, or_self] at h
  all_goals
    obtain ⟨rfl, -⟩ := h
    rfl

/-- Instance of C5: the probe of a non-coherent RMII device whose external calls all
succeed reaches `stmmac_dvr_probe`, with the nine flags set. -/
theorem s32cc_dwmac_probe_safety_flags_witness :
    event.stmmac_dvr_probe
      { phy_interface := PHY_INTERFACE_MODE_RMII, bsp_priv := 16384,
        axi4_ace_ctrl := none, has_gmac4 := true, pmt := 1,
        init := some callback.s32cc_gmac_init, exit := some callback.s32cc_gmac_exit,
        fix_mac_speed := some callback.s32cc_fix_speed,
        safety_feat_cfg := some
          { tsoee := 1, mrxpee := 1, mestee := 1, mrxee := 1, mtxee := 1,
            epsi := 1, edpp := 1, prtyen := 1, tmouten := 1 } } 0
      ∈ (s32cc_dwmac_probe (sample_env PHY_INTERFACE_MODE_RMII false)).trace ∧
    (some
      { tsoee := 1, mrxpee := 1, mestee := 1, mrxee := 1, mtxee := 1,
        epsi := 1, edpp := 1, prtyen := 1, tmouten := 1 } : Option stmmac_safety_feature_cfg)
      = some
      { tsoee := 1, mrxpee := 1, mestee := 1, mrxee := 1, mtxee := 1,
        epsi := 1, edpp := 1, prtyen := 1, tmouten := 1 } :=
  ⟨by decide,
   s32cc_dwmac_probe_safety_flags (sample_env PHY_INTERFACE_MODE_RMII false)
     { phy_interface := PHY_INTERFACE_MODE_RMII, bsp_priv := 16384,
       axi4_ace_ctrl := none, has_gmac4 := true, pmt := 1,
       init := some callback.s32cc_gmac_init, exit := some callback.s32cc_gmac_exit,
       fix_mac_speed := some callback.s32cc_fix_speed,
       safety_feat_cfg := some
         { tsoee := 1, mrxpee := 1, mestee := 1, mrxee := 1, mtxee := 1,
           epsi := 1, edpp := 1, prtyen := 1, tmouten := 1 } } 0
     (by decide)⟩

/-- C8 fails on the code: `s32cc_dwmac_probe` returns 0 without ever calling
`stmmac_dvr_probe` when the `safety_feat_cfg` allocation fails (after disabling both
clocks and removing the device-tree configuration), when the `gmac` allocation
returns NULL, and when the `ctrl_sts` mapping is NULL. -/
theorem s32cc_dwmac_probe_reports_success_on_failure :
    s32cc_dwmac_probe
      { sample_env PHY_INTERFACE_MODE_SGMII false with
        devm_kzalloc_safety_feat_cfg := false } =
      { ret := 0,
        trace := [event.devm_clk_get "tx_pcs" 8192, event.devm_clk_get "rx_pcs" 12288,
                  event.clk_prepare_enable 8192 0, event.clk_prepare_enable 12288 0,
                  event.writel 0x01 4096,
                  event.clk_disable_unprepare 8192, event.clk_disable_unprepare 12288,
                  event.stmmac_remove_config_dt] } ∧
    s32cc_dwmac_probe
      { sample_env PHY_INTERFACE_MODE_SGMII false with devm_kzalloc_gmac := NULL } =
      { ret := 0, trace := [] } ∧
    s32cc_dwmac_probe
      { sample_env PHY_INTERFACE_MODE_SGMII false with devm_ioremap_resource := NULL } =
      { ret := 0, trace := [] } := by
  refine ⟨?_, ?_, ?_⟩ <;> decide

/-- The `int` that `PTR_ERR` yields for an `IS_ERR` pointer is never 0. -/
theorem long_to_int_PTR_ERR_ne_zero (ptr : Int) (h : IS_ERR ptr = true) :
    long_to_int (PTR_ERR ptr) ≠ 0 := by
  simp only [IS_ERR, MAX_ERRNO, decide_eq_true_eq] at h
  simp only [long_to_int, PTR_ERR]
  omega

/-- The only ways in which `s32cc_dwmac_probe` returns 0: `stmmac_dvr_probe` was called
and returned 0, or one of the three allocation or mapping results was NULL. -/
theorem s32cc_dwmac_probe_zero_return (env : probe_env)
    (h : (s32cc_dwmac_probe env).ret = 0) :
    (∃ plat, event.stmmac_dvr_probe plat 0 ∈ (s32cc_dwmac_probe env).trace) ∨
    env.devm_kzalloc_gmac = NULL ∨ env.devm_ioremap_resource = NULL ∨
    env.devm_kzalloc_safety_feat_cfg = false := by
  have hptr := long_to_int_PTR_ERR_ne_zero
  revert h
  obtain ⟨r0, g, c, p, plat0, coh, ace, tx, rx, etx, erx, saf, dvr⟩ := env
  by_cases h0 : r0 ≠ 0
  · simp only [s32cc_dwmac_probe, if_pos h0]
    intro h
    exact absurd h h0
  by_cases hg : g = NULL
  · exact fun _ => Or.inr (Or.inl hg)
  by_cases hc : IS_ERR_OR_NULL c = true
  · simp only [s32cc_dwmac_probe, if_neg h0, if_neg hg, if_pos hc]
    intro h
    simp only [IS_ERR_OR_NULL, Bool.or_eq_true, decide_eq_true_eq] at hc
    rcases hc with hc | hc
    · exact Or.inr (Or.inr (Or.inl hc))
    · exact absurd h (hptr _ hc)
  by_cases hp : IS_ERR p = true
  · simp only [s32cc_dwmac_probe, if_neg h0, if_neg hg, if_neg hc, if_pos hp]
    intro h
    exact absurd h (hptr _ hp)
  have h0' : r0 = 0 := not_not.mp h0
  subst h0'
  cases saf
  · exact fun _ => Or.inr (Or.inr (Or.inr rfl))
  cases coh <;> cases ace <;>
    simp only [s32cc_dwmac_probe, s32cc_config_cache_coherency, if_neg hg, if_neg hc,
      if_neg hp, Bool.not_true, Bool.not_false, if_true, if_false, Bool.false_and,
      Bool.true_and, Bool.false_eq_true, reduceIte, ne_eq, not_true_eq_false,
      not_false_eq_true, decide_True, decide_False]
  all_goals
    split
    · simp [EINVAL, ENOMEM, err_remove_config_dt]
    split_ifs
  all_goals
    intro h
    simp only [err_remove_config_dt, err_gmac_exit] at h
  all_goals first
    | exact absurd h (hptr _ (by assumption))
    | contradiction
    | (subst_vars; exact Or.inl ⟨_, List.mem_append_right _ (List.mem_singleton_self _)⟩)

/-! ## Properties of `s32g274_pinctrl_probe` -/

/-- C4, as amended: `s32g274_pinctrl_probe` returns -ENODEV (-19) without calling
`s32_pinctrl_probe` when `of_match_device` finds no entry of `s32g2_pinctrl_of_match`,
and it skips that call in no other case; otherwise it calls `s32_pinctrl_probe` once,
with the data of the matched entry, and returns its result unchanged, whatever that
result is.  Every entry of the table has the compatible string
"nxp,s32g2-siul2-pinctrl0" and the data `s32g2_pinctrl0_info`, whose `pins` is the pad
table and whose `npins` is the length of that table, 22. -/
theorem s32g274_pinctrl_probe_single_indirection
    (S32_PINCTRL_PIN : String → pinctrl_pin_desc)
    (of_match_device : List of_device_id → Option of_device_id)
    (s32_pinctrl_probe : s32_pinctrl_soc_info → Int) :
    (of_match_device (s32g2_pinctrl_of_match S32_PINCTRL_PIN) = none →
      s32g274_pinctrl_probe S32_PINCTRL_PIN of_match_device s32_pinctrl_probe =
        { ret := -19, core_calls := [] }) ∧
    (∀ of_id, of_match_device (s32g2_pinctrl_of_match S32_PINCTRL_PIN) = some of_id →
      s32g274_pinctrl_probe S32_PINCTRL_PIN of_match_device s32_pinctrl_probe =
        { ret := s32_pinctrl_probe of_id.data, core_calls := [of_id.data] }) ∧
    ((s32g274_pinctrl_probe S32_PINCTRL_PIN of_match_device s32_pinctrl_probe).core_calls
        = [] ↔
      of_match_device (s32g2_pinctrl_of_match S32_PINCTRL_PIN) = none) ∧
    (∀ of_id ∈ s32g2_pinctrl_of_match S32_PINCTRL_PIN,
      of_id.compatible = "nxp,s32g2-siul2-pinctrl0" ∧
      of_id.data = s32g2_pinctrl0_info S32_PINCTRL_PIN) ∧
    (s32g2_pinctrl0_info S32_PINCTRL_PIN).pins = s32g2_pinctrl0_pads S32_PINCTRL_PIN ∧
    (s32g2_pinctrl0_info S32_PINCTRL_PIN).npins =
      (s32g2_pinctrl0_pads S32_PINCTRL_PIN).length ∧
    (s32g2_pinctrl0_pads S32_PINCTRL_PIN).length = 22 := by
  refine ⟨?_, ?_, ?_, ?_, rfl, rfl, rfl⟩
  · intro h
    simp [s32g274_pinctrl_probe, h, ENODEV]
  · intro of_id h
    simp [s32g274_pinctrl_probe, h]
  · unfold s32g274_pinctrl_probe
    cases of_match_device (s32g2_pinctrl_of_match S32_PINCTRL_PIN) <;> simp
  · intro of_id h
    simp only [s32g2_pinctrl_of_match, List.mem_singleton] at h
    subst h
    exact ⟨rfl, rfl⟩

/-- C4 as stated fails: the result of `s32_pinctrl_probe` is passed through, so with a
core probe that itself returns -ENODEV the device matching the one entry of the table
gets -19 although `of_match_device` found an entry; the return value is -ENODEV without
the match having failed. -/
theorem s32g274_pinctrl_probe_enodev_with_match :
    List.head? (s32g2_pinctrl_of_match sample_pin) =
      some { compatible := "nxp,s32g2-siul2-pinctrl0",
             data := s32g2_pinctrl0_info sample_pin } ∧
    s32g274_pinctrl_probe sample_pin List.head? (fun _ => -19) =
      { ret := -19, core_calls := [s32g2_pinctrl0_info sample_pin] } ∧
    ¬ ((s32g274_pinctrl_probe sample_pin List.head? (fun _ => -19)).ret = -19 ↔
       List.head? (s32g2_pinctrl_of_match sample_pin) = none) := by
  refine ⟨rfl, rfl, ?_⟩
  intro h
  have hret : (s32g274_pinctrl_probe sample_pin List.head? (fun _ => -19)).ret = -19 :=
    rfl
  have hnone := h.mp hret
  simp [s32g2_pinctrl_of_match] at hnone

/-- Instance of C4: a device that matches nothing, and a device matching the one entry
of the table with a core probe that returns the number of pins. -/
theorem s32g274_pinctrl_probe_single_indirection_witness :
    s32g274_pinctrl_probe sample_pin (fun _ => none) (fun info => info.npins) =
      { ret := -19, core_calls := [] } ∧
    s32g274_pinctrl_probe sample_pin List.head? (fun info => info.npins) =
      { ret := 22, core_calls := [s32g2_pinctrl0_info sample_pin] } :=
  ⟨(s32g274_pinctrl_probe_single_indirection sample_pin (fun _ => none)
      (fun info => info.npins)).1 rfl,
   (s32g274_pinctrl_probe_single_indirection sample_pin List.head?
      (fun info => info.npins)).2.1
      { compatible := "nxp,s32g2-siul2-pinctrl0", data := s32g2_pinctrl0_info sample_pin }
      rfl⟩

end S32G2
